import Mathlib

/-!
Verification of the move-notation parsing/validation pipeline and the linear
undo/redo history manager of the py-chess-bot repository.

The Python sources embedded here are:
  * src/game/move_parser.py   (parse_san_move)
  * src/game/move_validator.py (validate_move)
  * src/analysis/move_history.py (GameHistory)

Python strings are modelled as `List Char` (reached from `String` via `.data`);
a Python dict result is modelled as a structure whose optional keys are
`Option` fields (a key set only to `True` is a `Bool` field defaulting to
`false`).  The argument of parse_san_move is `Option String`: `none` stands
for Python `None` or any other non-string value, which the source treats
uniformly in its first guard.
-/

/-- Characters removed by Python str.strip: the Unicode whitespace set of
str.isspace — tab through carriage return, the four information separators,
space, next-line, no-break space, ogham space mark, the en-quad to hair-space
range, line and paragraph separators, narrow no-break space, medium
mathematical space, and ideographic space. -/
def pySpace (c : Char) : Bool :=
  decide ((9 ≤ c.toNat ∧ c.toNat ≤ 13) ∨ (28 ≤ c.toNat ∧ c.toNat ≤ 31) ∨
    c.toNat = 32 ∨ c.toNat = 133 ∨ c.toNat = 160 ∨ c.toNat = 5760 ∨
    (8192 ≤ c.toNat ∧ c.toNat ≤ 8202) ∨ c.toNat = 8232 ∨ c.toNat = 8233 ∨
    c.toNat = 8239 ∨ c.toNat = 8287 ∨ c.toNat = 12288)

/-- Python str.strip: drop whitespace from both ends. -/
def pyStrip (l : List Char) : List Char :=
  ((l.dropWhile pySpace).reverse.dropWhile pySpace).reverse

/-- Piece kinds named by the parser. -/
inductive Piece where
  | pawn
  | knight
  | bishop
  | rook
  | queen
  | king
deriving DecidableEq

/-- Castling sides named by the parser. -/
inductive CastleSide where
  | kingside
  | queenside
deriving DecidableEq

/-- Result dictionary of parse_san_move.  Each optional dict key is an
`Option` field (or a `Bool` field defaulting to `false` for keys that are
only ever set to `True`). -/
structure ParseResult where
  valid : Bool
  error : Option String := none
  check : Bool := false
  checkmate : Bool := false
  castling : Option CastleSide := none
  capture : Bool := false
  promotion : Option Piece := none
  destination : Option (List Char) := none
  piece : Option Piece := none
deriving DecidableEq

/-- Strip a trailing hash (checkmate) or else a trailing plus (check),
mirroring the two endswith branches of parse_san_move.
Returns (checkmate, check, remaining token). -/
def stripCheckSuffix (l : List Char) : Bool × Bool × List Char :=
  if l.getLast? = some '#' then (true, false, l.dropLast)
  else if l.getLast? = some '+' then (false, true, l.dropLast)
  else (false, false, l)

/-- The piece named by a promotion letter, as in the piece_names dict. -/
def promoPiece (c : Char) : Option Piece :=
  if c = 'Q' then some Piece.queen
  else if c = 'R' then some Piece.rook
  else if c = 'B' then some Piece.bishop
  else if c = 'N' then some Piece.knight
  else none

/-- Mirrors the regex search for a trailing promotion suffix =Q, =R, =B or
=N.  The end anchor of the Python pattern matches at the end of the string
or just before one trailing newline, so the suffix is also recognised with a
single newline after it; the token is cut at the start of the match, which
removes the suffix together with that newline.  Otherwise the token is
returned unchanged. -/
def stripPromotion (l : List Char) : Option Piece × List Char :=
  match l.reverse with
  | '\n' :: p :: '=' :: rest =>
    match promoPiece p with
    | some pc => (some pc, rest.reverse)
    | none => (none, l)
  | p :: '=' :: rest =>
    match promoPiece p with
    | some pc => (some pc, rest.reverse)
    | none => (none, l)
  | _ => (none, l)

/-- A file letter a-h (the character class of the destination regex). -/
def isFile (c : Char) : Bool := ("abcdefgh".data).contains c

/-- A rank digit 1-8 (the character class of the destination regex). -/
def isRank (c : Char) : Bool := ("12345678".data).contains c

/-- The destination check re.match of a file letter and a rank digit between
start and end anchors.  The end anchor also matches just before one trailing
newline, so the program accepts a two-character square optionally followed
by a single newline. -/
def isValidSquare (d : List Char) : Bool :=
  match d with
  | [f, r] => isFile f && isRank r
  | [f, r, c] => isFile f && isRank r && c == '\n'
  | _ => false

/-- The piece-type classification chain of parse_san_move: empty piece part
is a plain pawn move, a single uppercase piece letter names that piece, a
single file letter is a pawn capture disambiguator, anything else is invalid.
(The Python substring test `piece_part in "abcdefgh"` under the length-1
guard is exactly membership of the single character.) -/
def classifyPiece (pp : List Char) : Option Piece :=
  if pp = [] then some Piece.pawn
  else if pp = ['K'] then some Piece.king
  else if pp = ['Q'] then some Piece.queen
  else if pp = ['R'] then some Piece.rook
  else if pp = ['B'] then some Piece.bishop
  else if pp = ['N'] then some Piece.knight
  else if pp.length == 1 && pp.all isFile then some Piece.pawn
  else none

/-- Tail of parse_san_move once piece part and destination are split:
validate the destination square, then classify the piece part. -/
def finishParse (r : ParseResult) (pp dest : List Char) : ParseResult :=
  if !(isValidSquare dest) then
    { valid := false, error := some (String.mk ("Invalid destination square: ".data ++ dest)) }
  else
    match classifyPiece pp with
    | some pc => { r with destination := some dest, piece := some pc }
    | none => { valid := false, error := some (String.mk ("Invalid piece notation: ".data ++ pp)) }

/-- Capture / plain-move section of parse_san_move: if the token contains an
x, split on it and require exactly two parts; otherwise the destination is
the last two characters and the piece part is everything before them. -/
def parseDestSection (r : ParseResult) (l : List Char) : ParseResult :=
  if 'x' ∈ l then
    match l.splitOn 'x' with
    | [pp, dest] => finishParse { r with capture := true } pp dest
    | _ => { valid := false, error := some (String.mk ("Invalid capture notation: ".data ++ l ++ ['x'])) }
  else
    finishParse r (if l.length > 2 then l.take (l.length - 2) else []) (l.drop (l.length - 2))

/-- Body of parse_san_move on the stripped, nonempty token: strip check or
checkmate suffix, recognise castling, strip a promotion suffix, then handle
captures and the destination square. -/
def parseStripped (l : List Char) : ParseResult :=
  let t := stripCheckSuffix l
  let r : ParseResult := { valid := true, checkmate := t.1, check := t.2.1 }
  if t.2.2 = "O-O".data then { r with castling := some CastleSide.kingside }
  else if t.2.2 = "O-O-O".data then { r with castling := some CastleSide.queenside }
  else
    let pr := stripPromotion t.2.2
    parseDestSection { r with promotion := pr.1 } pr.2

/-- parse_san_move from src/game/move_parser.py.  `none` models Python None
or any non-string argument, rejected by the first guard together with the
empty string; a whitespace-only string strips to empty and is rejected by
the second guard. -/
def parse_san_move (sanArg : Option String) : ParseResult :=
  match sanArg with
  | none => { valid := false, error := some ("Invalid input") }
  | some s =>
    if s.data = [] then { valid := false, error := some ("Invalid input") }
    else
      let l := pyStrip s.data
      if l = [] then { valid := false, error := some ("Empty notation") }
      else parseStripped l

/-- Opaque python-chess Move object produced by the legality oracle. -/
structure MoveObject where
  moveId : Nat
deriving DecidableEq

/-- Outcome of the legality-oracle call (chess.Board on the FEN followed by
board.parse_san on the token): a legal move object, a ValueError meaning the
move is not legal in the position, or any other exception with a message. -/
inductive OracleOutcome where
  | legalMove (m : MoveObject)
  | valueError
  | otherError (msg : String)
deriving DecidableEq

/-- Result dictionary of validate_move: the parse result possibly extended
with the legal flag and the move object. -/
structure ValidationResult extends ParseResult where
  legal : Option Bool := none
  move_object : Option MoveObject := none
deriving DecidableEq

/-- The apostrophe character used in the legality error message. -/
def apostrophe : Char := Char.ofNat 39

/-- validate_move from src/game/move_validator.py, with the python-chess
legality check injected as an oracle from (FEN, token) to an outcome. -/
def validate_move (oracle : String → String → OracleOutcome)
    (sanArg : Option String) (board_state : Option String) : ValidationResult :=
  let result := parse_san_move sanArg
  if result.valid = false then { toParseResult := result }
  else
    match board_state with
    | none => { toParseResult := result }
    | some bs =>
      match oracle bs (sanArg.getD ("")) with
      | OracleOutcome.legalMove m =>
        { toParseResult := result, legal := some true, move_object := some m }
      | OracleOutcome.valueError =>
        { toParseResult :=
            { result with error := some ("Move " ++ String.mk [apostrophe] ++ sanArg.getD ("") ++
                String.mk [apostrophe] ++ " is not legal in current position") },
          legal := some false }
      | OracleOutcome.otherError msg =>
        { toParseResult := { result with error := some ("Board validation error: " ++ msg) },
          legal := some false }

/-- GameHistory from src/analysis/move_history.py: a list of position
snapshots and an integer cursor (Python ints are unbounded, so `Int`).
Snapshots are opaque immutable values, so the deep copy is the identity. -/
structure GameHistory (α : Type) where
  positions : List α
  current_index : Int
deriving DecidableEq

/-- The freshly constructed empty history. -/
def GameHistory.emptyLog (α : Type) : GameHistory α :=
  { positions := [], current_index := -1 }

/-- Python list slice l[:stop], including the negative-stop convention. -/
def pySliceTo {α : Type} (l : List α) (stop : Int) : List α :=
  if 0 ≤ stop then l.take stop.toNat
  else l.take (l.length - (-stop).toNat)

/-- GameHistory.add_position: truncate forward history, append a copy of the
new position, and point the cursor at it. -/
def GameHistory.add_position {α : Type} (h : GameHistory α) (s : α) : GameHistory α :=
  let ps := pySliceTo h.positions (h.current_index + 1) ++ [s]
  { positions := ps, current_index := (ps.length : Int) - 1 }

/-- GameHistory.undo: move the cursor back when possible; the Bool is the
return value, the second component the state after the call. -/
def GameHistory.undo {α : Type} (h : GameHistory α) : Bool × GameHistory α :=
  if 0 < h.current_index then (true, { h with current_index := h.current_index - 1 })
  else (false, h)

/-- GameHistory.redo: move the cursor forward when possible. -/
def GameHistory.redo {α : Type} (h : GameHistory α) : Bool × GameHistory α :=
  if h.current_index < (h.positions.length : Int) - 1 then
    (true, { h with current_index := h.current_index + 1 })
  else (false, h)

/-- GameHistory.get_current: the snapshot under the cursor, if any. -/
def GameHistory.get_current {α : Type} (h : GameHistory α) : Option α :=
  if 0 ≤ h.current_index ∧ h.current_index < (h.positions.length : Int) then
    h.positions.get? h.current_index.toNat
  else none

/-- GameHistory.can_undo. -/
def GameHistory.can_undo {α : Type} (h : GameHistory α) : Bool :=
  decide (0 < h.current_index)

/-- GameHistory.can_redo. -/
def GameHistory.can_redo {α : Type} (h : GameHistory α) : Bool :=
  decide (h.current_index < (h.positions.length : Int) - 1)

/-- GameHistory.get_move_count. -/
def GameHistory.get_move_count {α : Type} (h : GameHistory α) : Nat :=
  h.positions.length

/-- Histories reachable from the fresh empty log by the three mutating
operations. -/
inductive Reachable {α : Type} : GameHistory α → Prop where
  | emptyLog : Reachable (GameHistory.emptyLog α)
  | add (h : GameHistory α) (s : α) : Reachable h → Reachable (h.add_position s)
  | undo (h : GameHistory α) : Reachable h → Reachable h.undo.2
  | redo (h : GameHistory α) : Reachable h → Reachable h.redo.2

/-- A stub oracle used to instantiate oracle-parametric statements at
concrete inputs; validate_move never consults it on the inputs where it is
used below. -/
def oracleStub : String → String → OracleOutcome :=
  fun _ _ => OracleOutcome.valueError

/-- The starting-position FEN used as a concrete position descriptor. -/
def startFEN : String := "rnbqkbnr/pppppppp/8/8/8/8/PPPPPPPP/RNBQKBNR w KQkq - 0 1"

lemma get?_append_singleton {α : Type} (l : List α) (a : α) :
    (l ++ [a]).get? l.length = some a := by
  induction l with
  | nil => rfl
  | cons x xs ih => exact ih

lemma reachable_bounds {α : Type} (h : GameHistory α) (hr : Reachable h) :
    -1 ≤ h.current_index ∧ h.current_index < (h.positions.length : Int) ∧
    (h.current_index = -1 ↔ h.positions = []) := by
  induction hr with
  | emptyLog => simp [GameHistory.emptyLog]
  | add h s _ ih =>
    simp only [GameHistory.add_position, List.length_append, List.length_cons,
      List.length_nil]
    refine ⟨by push_cast; omega, by push_cast; omega, ?_⟩
    constructor
    · intro hh
      exfalso
      push_cast at hh
      omega
    · intro hh
      exact absurd hh (by simp)
  | undo h _ ih =>
    by_cases hc : 0 < h.current_index
    · simp only [GameHistory.undo, if_pos hc]
      refine ⟨by omega, by omega, ?_⟩
      constructor
      · intro hh
        omega
      · intro hh
        exact absurd (ih.2.2.mpr hh) (by omega)
    · simp only [GameHistory.undo, if_neg hc]
      exact ih
  | redo h _ ih =>
    by_cases hc : h.current_index < (h.positions.length : Int) - 1
    · simp only [GameHistory.redo, if_pos hc]
      refine ⟨by omega, by omega, ?_⟩
      constructor
      · intro hh
        omega
      · intro hh
        have := ih.2.2.mpr hh
        have hlen : h.positions.length = 0 := by simp [hh]
        omega
    · simp only [GameHistory.redo, if_neg hc]
      exact ih

/-- Claim C5: add_position truncates the stored list to the cursor, appends
the snapshot, points the cursor at the end, makes the snapshot current, and
leaves nothing to redo. -/
theorem claim_C5_add_position {α : Type} (h : GameHistory α) (s : α)
    (hidx : -1 ≤ h.current_index) :
    (h.add_position s).positions
        = h.positions.take (h.current_index + 1).toNat ++ [s]
  ∧ (h.add_position s).current_index
        = ((h.add_position s).positions.length : Int) - 1
  ∧ (h.add_position s).get_current = some s
  ∧ (h.add_position s).can_redo = false := by
  have hslice : pySliceTo h.positions (h.current_index + 1)
      = h.positions.take (h.current_index + 1).toNat := by
    simp only [pySliceTo, if_pos (by omega : (0:Int) ≤ h.current_index + 1)]
  have hpos : (h.add_position s).positions
      = pySliceTo h.positions (h.current_index + 1) ++ [s] := rfl
  have hci : (h.add_position s).current_index
      = (((h.add_position s).positions.length : Int)) - 1 := rfl
  refine ⟨by rw [hpos, hslice], hci, ?_, ?_⟩
  · have key : ∀ (q : List α),
        GameHistory.get_current ⟨q ++ [s], ((q ++ [s]).length : Int) - 1⟩ = some s := by
      intro q
      have hlen : ((q ++ [s]).length : Int) = (q.length : Int) + 1 := by simp
      unfold GameHistory.get_current
      dsimp only
      rw [if_pos ⟨by omega, by omega⟩]
      have ht : ((((q ++ [s]).length : Int)) - 1).toNat = q.length := by omega
      rw [ht]
      exact get?_append_singleton q s
    exact key (pySliceTo h.positions (h.current_index + 1))
  · simp only [GameHistory.can_redo, hci, decide_eq_false_iff_not]
    omega

/-- Witness for C5 at the two-element history with cursor 0. -/
theorem claim_C5_witness :
    -1 ≤ (GameHistory.mk [10, 20] 0 : GameHistory Nat).current_index
  ∧ ((GameHistory.mk [10, 20] 0 : GameHistory Nat).add_position 30).get_current = some 30 :=
  ⟨by decide, (claim_C5_add_position (GameHistory.mk [10, 20] 0) 30 (by decide)).2.2.1⟩

/-- Claim C6: every reachable history keeps its cursor in [-1, length), with
-1 exactly on the empty log, and the first add on an empty log puts the
cursor at 0. -/
theorem claim_C6_cursor_invariant {α : Type} (h : GameHistory α) (hreach : Reachable h) :
    (-1 ≤ h.current_index ∧ h.current_index < (h.positions.length : Int)
      ∧ (h.current_index = -1 ↔ h.positions = []))
  ∧ ∀ s : α, ((GameHistory.emptyLog α).add_position s).current_index = 0 := by
  refine ⟨reachable_bounds h hreach, fun s => ?_⟩
  simp [GameHistory.add_position, GameHistory.emptyLog, pySliceTo]

/-- Witness for C6 at the empty log over Nat. -/
theorem claim_C6_witness :
    Reachable (GameHistory.emptyLog Nat)
  ∧ -1 ≤ (GameHistory.emptyLog Nat).current_index :=
  ⟨Reachable.emptyLog, (claim_C6_cursor_invariant _ Reachable.emptyLog).1.1⟩

/-- Claim C7: undo succeeds exactly when the cursor is positive and redo
exactly when it is before the last entry; each moves only the cursor, by one,
and a failed call changes nothing. -/
theorem claim_C7_undo_redo_semantics {α : Type} (h : GameHistory α) :
    (h.undo.1 = true ↔ 0 < h.current_index)
  ∧ h.undo.2.positions = h.positions
  ∧ h.undo.2.current_index
      = (if 0 < h.current_index then h.current_index - 1 else h.current_index)
  ∧ (h.redo.1 = true ↔ h.current_index < (h.positions.length : Int) - 1)
  ∧ h.redo.2.positions = h.positions
  ∧ h.redo.2.current_index
      = (if h.current_index < (h.positions.length : Int) - 1 then h.current_index + 1
         else h.current_index) := by
  by_cases hu : 0 < h.current_index <;>
    by_cases hr : h.current_index < (h.positions.length : Int) - 1 <;>
      simp [GameHistory.undo, GameHistory.redo, hu, hr]

/-- Witness for C7 at a two-element history with cursor 1. -/
theorem claim_C7_witness :
    ((GameHistory.mk [10, 20] 1 : GameHistory Nat).undo.1 = true ↔ 0 < (1 : Int))
  ∧ (GameHistory.mk [10, 20] 1 : GameHistory Nat).undo.2.positions = [10, 20] :=
  ⟨(claim_C7_undo_redo_semantics (GameHistory.mk [10, 20] 1)).1,
    (claim_C7_undo_redo_semantics (GameHistory.mk [10, 20] 1)).2.1⟩

/-- Claim C10: on reachable histories a successful undo is inverted by redo
and a successful redo is inverted by undo, restoring the exact state. -/
theorem claim_C10_undo_redo_inverse {α : Type} (h : GameHistory α) (hreach : Reachable h) :
    (h.undo.1 = true → h.undo.2.redo = (true, h))
  ∧ (h.redo.1 = true → h.redo.2.undo = (true, h)) := by
  obtain ⟨hlo, hhi, hemp⟩ := reachable_bounds h hreach
  constructor
  · intro hu
    have hc : 0 < h.current_index := by
      by_contra hc
      simp [GameHistory.undo, hc] at hu
    have h2 : h.undo.2 = { h with current_index := h.current_index - 1 } := by
      simp [GameHistory.undo, hc]
    rw [h2]
    have hcond : ({ h with current_index := h.current_index - 1 } : GameHistory α).current_index
        < (({ h with current_index := h.current_index - 1 } : GameHistory α).positions.length : Int) - 1 := by
      simp
      omega
    simp [GameHistory.redo, hcond]
  · intro hu
    have hc : h.current_index < (h.positions.length : Int) - 1 := by
      by_contra hc
      simp [GameHistory.redo, hc] at hu
    have hne : h.current_index ≠ -1 := by
      intro he
      have hnil : h.positions = [] := hemp.mp he
      rw [hnil] at hc
      simp at hc
      omega
    have h2 : h.redo.2 = { h with current_index := h.current_index + 1 } := by
      simp [GameHistory.redo, hc]
    rw [h2]
    have hcond : (0 : Int) < ({ h with current_index := h.current_index + 1 } : GameHistory α).current_index := by
      simp
      omega
    simp [GameHistory.undo, hcond]

/-- Witness for C10 on the reachable two-entry history. -/
theorem claim_C10_witness :
    Reachable (((GameHistory.emptyLog Nat).add_position 0).add_position 1)
  ∧ (((GameHistory.emptyLog Nat).add_position 0).add_position 1).undo.2.redo
      = (true, ((GameHistory.emptyLog Nat).add_position 0).add_position 1) :=
  ⟨Reachable.add _ 1 (Reachable.add _ 0 Reachable.emptyLog),
    (claim_C10_undo_redo_inverse _
      (Reachable.add _ 1 (Reachable.add _ 0 Reachable.emptyLog))).1 (by decide)⟩

/-- Claim C8: with no position supplied, validate_move returns exactly the
parse result, with no legal flag and no move object, on success and failure
alike. -/
theorem claim_C8_no_position_is_parse (oracle : String → String → OracleOutcome)
    (sanArg : Option String) :
    validate_move oracle sanArg none = { toParseResult := parse_san_move sanArg } := by
  by_cases hv : (parse_san_move sanArg).valid = false <;>
    simp [validate_move, hv]

/-- Witness for C8 on the token e4. -/
theorem claim_C8_witness :
    validate_move oracleStub (some ("e4")) none
      = { toParseResult := parse_san_move (some ("e4")) } :=
  claim_C8_no_position_is_parse oracleStub (some ("e4"))

/-- Claim C1 (amended): the move object is present exactly when legal is
some true, and legal is present exactly when a position was supplied AND the
parse succeeded. -/
theorem claim_C1_amended_fields (oracle : String → String → OracleOutcome)
    (sanArg board_state : Option String) :
    ((validate_move oracle sanArg board_state).move_object.isSome = true
        ↔ (validate_move oracle sanArg board_state).legal = some true)
  ∧ ((validate_move oracle sanArg board_state).legal.isSome = true
        ↔ board_state.isSome = true ∧ (parse_san_move sanArg).valid = true) := by
  by_cases hv : (parse_san_move sanArg).valid = false
  · simp [validate_move, hv]
  · have hvt : (parse_san_move sanArg).valid = true := by
      revert hv
      cases (parse_san_move sanArg).valid <;> simp
    cases board_state with
    | none => simp [validate_move, hvt]
    | some bs =>
      cases houtcome : oracle bs (sanArg.getD ("")) <;>
        simp [validate_move, hvt, houtcome]

/-- Witness for C1 on the token e4 with a position supplied. -/
theorem claim_C1_witness :
    (validate_move oracleStub (some ("e4")) (some ("fen"))).move_object.isSome = true
      ↔ (validate_move oracleStub (some ("e4")) (some ("fen"))).legal = some true :=
  (claim_C1_amended_fields oracleStub (some ("e4")) (some ("fen"))).1

/-- Counterexample to C1 as stated: for the token zz, which fails syntax
parsing, the result carries no legal flag even though a position was
supplied. -/
theorem claim_C1_counterexample :
    ¬ (((validate_move oracleStub (some ("zz")) (some startFEN)).legal.isSome = true)
        ↔ ((some startFEN : Option String).isSome = true)) := by
  decide

lemma finishParse_ok_or_error (r : ParseResult) (pp d : List Char) (hr : r.valid = true) :
    (finishParse r pp d).valid = true ∨ (finishParse r pp d).error.isSome = true := by
  unfold finishParse
  split
  · right
    rfl
  · split
    · left
      exact hr
    · right
      rfl

lemma parseDestSection_ok_or_error (r : ParseResult) (l : List Char) (hr : r.valid = true) :
    (parseDestSection r l).valid = true ∨ (parseDestSection r l).error.isSome = true := by
  unfold parseDestSection
  split
  · split
    · exact finishParse_ok_or_error _ _ _ hr
    · right
      rfl
  · exact finishParse_ok_or_error _ _ _ hr

lemma parseStripped_ok_or_error (l : List Char) :
    (parseStripped l).valid = true ∨ (parseStripped l).error.isSome = true := by
  simp only [parseStripped]
  split
  · left
    rfl
  · split
    · left
      rfl
    · exact parseDestSection_ok_or_error _ _ rfl

/-- Counterexample to C3 as stated: on None the parser does not raise; it
returns the structured Invalid-input result. -/
theorem claim_C3_counterexample :
    (parse_san_move none).valid = false
  ∧ (parse_san_move none).error = some ("Invalid input") :=
  ⟨rfl, rfl⟩

/-- Claim C3 (amended): the parser never raises; None or non-string input
yields the structured Invalid-input result, and every result either succeeds
or carries a human-readable error string. -/
theorem claim_C3_amended_structured_errors :
    parse_san_move none = { valid := false, error := some ("Invalid input") }
  ∧ ∀ sanArg : Option String,
      (parse_san_move sanArg).valid = true
        ∨ (parse_san_move sanArg).error.isSome = true := by
  refine ⟨rfl, fun sanArg => ?_⟩
  cases sanArg with
  | none =>
    right
    rfl
  | some s =>
    simp only [parse_san_move]
    split
    · right
      rfl
    · split
      · right
        rfl
      · exact parseStripped_ok_or_error _

/-- Witness for C3 at the malformed token zz. -/
theorem claim_C3_witness :
    (parse_san_move (some ("zz"))).valid = true
  ∨ (parse_san_move (some ("zz"))).error.isSome = true :=
  claim_C3_amended_structured_errors.2 (some ("zz"))

/-- Counterexample to C2 as stated: the token xe4, whose part before x is
empty, is accepted as a pawn capture rather than rejected. -/
theorem claim_C2_counterexample :
    parse_san_move (some ("xe4"))
      = { valid := true, capture := true, destination := some (['e', '4']),
          piece := some Piece.pawn } := by
  decide

/-- Claim C2 (amended): in the capture branch, success requires the split on
x to produce exactly two parts, and any other number of parts produces the
invalid-capture syntax error; the parts are not required to be non-empty. -/
theorem claim_C2_amended_capture_split :
    (∀ (r : ParseResult) (l : List Char), 'x' ∈ l →
      ((parseDestSection r l).valid = true → (l.splitOn 'x').length = 2)
      ∧ ((l.splitOn 'x').length ≠ 2 →
          parseDestSection r l
            = { valid := false,
                error := some (String.mk ("Invalid capture notation: ".data ++ l ++ ['x'])) }))
  ∧ parse_san_move (some ("axb2xc3"))
      = { valid := false, error := some ("Invalid capture notation: axb2xc3x") } := by
  constructor
  · intro r l hx
    rcases hs : l.splitOn 'x' with _ | ⟨a, _ | ⟨b, _ | ⟨c, rest⟩⟩⟩ <;>
      constructor <;>
        simp [parseDestSection, hx, hs]
  · decide

/-- Witness for C2 at a token with two embedded x characters. -/
theorem claim_C2_witness :
    'x' ∈ ['a', 'x', 'b', 'x', 'c']
  ∧ parseDestSection { valid := true } ['a', 'x', 'b', 'x', 'c']
      = { valid := false,
          error := some (String.mk ("Invalid capture notation: ".data
            ++ ['a', 'x', 'b', 'x', 'c'] ++ ['x'])) } :=
  ⟨by decide,
    (claim_C2_amended_capture_split.1 { valid := true } ['a', 'x', 'b', 'x', 'c']
      (by decide)).2 (by decide)⟩

/-- Counterexample to C4 as stated: the disambiguated piece moves Nbd2 and
R1a3 are rejected by the parser, not accepted. -/
theorem claim_C4_counterexample :
    (parse_san_move (some ("Nbd2"))).valid = false
  ∧ (parse_san_move (some ("R1a3"))).valid = false := by
  decide

/-- Claim C4 (amended): every piece part of two or more characters fails
classification, so disambiguated piece moves such as Nbd2 and R1a3 are
rejected with an invalid-piece error. -/
theorem claim_C4_amended_disambiguation_rejected :
    (∀ pp : List Char, 2 ≤ pp.length → classifyPiece pp = none)
  ∧ parse_san_move (some ("Nbd2"))
      = { valid := false, error := some ("Invalid piece notation: Nb") }
  ∧ parse_san_move (some ("R1a3"))
      = { valid := false, error := some ("Invalid piece notation: R1") } := by
  refine ⟨?_, by decide, by decide⟩
  intro pp hlen
  rcases pp with _ | ⟨a, _ | ⟨b, rest⟩⟩
  · simp at hlen
  · simp at hlen
  · simp [classifyPiece]

/-- Witness for C4 at the piece part Nb. -/
theorem claim_C4_witness :
    2 ≤ (['N', 'b'] : List Char).length ∧ classifyPiece ['N', 'b'] = none :=
  ⟨by decide, claim_C4_amended_disambiguation_rejected.1 ['N', 'b'] (by decide)⟩

lemma finishParse_valid_shape (r : ParseResult) (pp d : List Char)
    (hv : (finishParse r pp d).valid = true) :
    (finishParse r pp d).castling = r.castling
  ∧ (finishParse r pp d).destination = some d
  ∧ isValidSquare d = true := by
  cases hb : isValidSquare d with
  | false =>
    exfalso
    simp [finishParse, hb] at hv
  | true =>
    cases hc : classifyPiece pp with
    | none =>
      exfalso
      simp [finishParse, hb, hc] at hv
    | some pc =>
      simp [finishParse, hb, hc]

lemma parseDestSection_valid_shape (r : ParseResult) (l : List Char)
    (hv : (parseDestSection r l).valid = true) :
    (parseDestSection r l).castling = r.castling
  ∧ ∃ d, (parseDestSection r l).destination = some d ∧ isValidSquare d = true := by
  revert hv
  by_cases hx : 'x' ∈ l
  · rcases hs : l.splitOn 'x' with _ | ⟨a, _ | ⟨b, _ | ⟨c, rest⟩⟩⟩ <;>
      simp only [parseDestSection, if_pos hx, hs] <;> intro hv
    · simp at hv
    · simp at hv
    · obtain ⟨h1, h2, h3⟩ := finishParse_valid_shape _ a b hv
      exact ⟨h1, b, h2, h3⟩
    · simp at hv
  · simp only [parseDestSection, if_neg hx]
    intro hv
    obtain ⟨h1, h2, h3⟩ := finishParse_valid_shape r _ _ hv
    exact ⟨h1, _, h2, h3⟩

lemma parseStripped_valid_shape (l : List Char) :
    (parseStripped l).valid = true →
    ((parseStripped l).castling = some CastleSide.kingside
        ∧ (parseStripped l).destination = none)
  ∨ ((parseStripped l).castling = some CastleSide.queenside
        ∧ (parseStripped l).destination = none)
  ∨ ((parseStripped l).castling = none
        ∧ ∃ d, (parseStripped l).destination = some d ∧ isValidSquare d = true) := by
  simp only [parseStripped]
  split
  · intro _
    left
    exact ⟨rfl, rfl⟩
  · split
    · intro _
      right
      left
      exact ⟨rfl, rfl⟩
    · intro hv
      right
      right
      obtain ⟨h1, h2⟩ := parseDestSection_valid_shape _ _ hv
      exact ⟨h1, h2⟩

/-- Counterexample to C9 as stated: the token axe4 with a newline before the
checkmate mark parses as valid and non-castle, yet its destination is the
three-character string e4-newline — accepted by the destination regex only
through the end anchor matching before a trailing newline — which is not a
two-character square of a file letter and a rank digit. -/
theorem claim_C9_counterexample :
    (parse_san_move (some ("axe4\n#"))).valid = true
  ∧ (parse_san_move (some ("axe4\n#"))).castling = none
  ∧ (parse_san_move (some ("axe4\n#"))).destination = some (['e', '4', '\n'])
  ∧ (['e', '4', '\n'] : List Char).length ≠ 2 := by
  decide

/-- Claim C9 (amended): a successfully parsed token is exactly one of a
kingside castle, a queenside castle, or a normal move; castles carry no
destination square, and a normal move carries no castling marker and a
destination accepted by the destination check — a file letter followed by a
rank digit, optionally followed by one trailing newline, since the end
anchor of the Python regex also matches there. -/
theorem claim_C9_exactly_one (sanArg : Option String)
    (hv : (parse_san_move sanArg).valid = true) :
    ((parse_san_move sanArg).castling = some CastleSide.kingside
        ∧ (parse_san_move sanArg).destination = none)
  ∨ ((parse_san_move sanArg).castling = some CastleSide.queenside
        ∧ (parse_san_move sanArg).destination = none)
  ∨ ((parse_san_move sanArg).castling = none
        ∧ ∃ d, (parse_san_move sanArg).destination = some d ∧ isValidSquare d = true) := by
  cases sanArg with
  | none => simp [parse_san_move] at hv
  | some s =>
    revert hv
    simp only [parse_san_move]
    split
    · intro hv
      simp at hv
    · split
      · intro hv
        simp at hv
      · exact parseStripped_valid_shape _

/-- Witness for C9 at the token e4. -/
theorem claim_C9_witness :
    (parse_san_move (some ("e4"))).valid = true
  ∧ (((parse_san_move (some ("e4"))).castling = some CastleSide.kingside
        ∧ (parse_san_move (some ("e4"))).destination = none)
    ∨ ((parse_san_move (some ("e4"))).castling = some CastleSide.queenside
        ∧ (parse_san_move (some ("e4"))).destination = none)
    ∨ ((parse_san_move (some ("e4"))).castling = none
        ∧ ∃ d, (parse_san_move (some ("e4"))).destination = some d
            ∧ isValidSquare d = true)) :=
  ⟨by decide, claim_C9_exactly_one (some ("e4")) (by decide)⟩
